import Mathlib

/-
  Verification of `src/generate.py` (InvestGPT text-generation service).

  The script is a single `main()`:
    - an outer try:
        * load tokenizer/model/pipeline (the TextGenerator capability);
        * `for line in sys.stdin:` — for each raw line, an inner try:
            - `data = json.loads(line)`
            - `prompt = data.get("prompt", "").strip()`
            - `if not prompt:` print `{"error": "Prompt is required."}` and continue
            - `output = generator(prompt, max_length=128, num_return_sequences=1)`
            - `result = output[0]["generated_text"] if output else ""`
            - print `{"result": result}`
          the inner `except Exception as e:` prints `{"error": str(e)}`;
    - the outer `except Exception as e:` prints
      `{"error": f"Failed to load model: {e}"}` and calls `sys.exit(1)`.

  Embedding choices:
    - JSON values produced by `json.loads` are the inductive `JVal`.
    - Each successfully pulled stdin line is represented by the outcome of
      `json.loads` on its text: `Except String JVal` (`Except.error m` is a
      raised `json.JSONDecodeError` with message `m`, caught by the inner
      handler as the first statement of the per-line body).
    - Python `AttributeError` messages raised by `data.get` on a non-dict and
      by `.strip()` on a non-str are reproduced verbatim from CPython
      ("list object has no attribute get", with the type and attribute names
      in single quotes).
    - The capability `generator(prompt, max_length, num_return_sequences)` is a
      parameter `gen : String → Nat → Nat → Except String (List String)`
      returning the `generated_text` of each candidate, or the message of a
      raised generation exception.  `processLine` also returns the list of
      capability invocations made (prompt, max_length, num_return_sequences),
      so "called exactly once with fixed parameters" is statable.
    - The stdin iterator itself can raise (e.g. `UnicodeDecodeError` on
      non-UTF-8 bytes) outside the inner try: the stream is modelled as the
      list of successfully yielded lines plus an optional terminal read
      exception (`readErr`); `none` is clean end-of-stream.
    - `print(json.dumps(...))` writes one serialized line to the buffered
      stdout and never passes `flush=True` nor calls `sys.stdout.flush()`;
      `OutChannel` models the buffered channel so this is statable.
-/

namespace InvestGPT

/-- A JSON value as produced by Python `json.loads`: null, bool, number,
string, array, or object (a dict, here an association list in insertion
order; `json.loads` keeps the last binding for a duplicated key). -/
inductive JVal where
  | jnull : JVal
  | jbool : Bool → JVal
  | jnum : Int → JVal
  | jstr : String → JVal
  | jarr : List JVal → JVal
  | jobj : List (String × JVal) → JVal

/-- The Python type name of a decoded JSON value, as it appears in CPython
`AttributeError` messages. -/
def pyTypeName : JVal → String
  | JVal.jnull => "NoneType"
  | JVal.jbool _ => "bool"
  | JVal.jnum _ => "int"
  | JVal.jstr _ => "str"
  | JVal.jarr _ => "list"
  | JVal.jobj _ => "dict"

/-- Dict lookup for a decoded JSON object: the last binding wins, matching the
dict `json.loads` builds (later duplicate keys overwrite earlier ones).
`data.get(k)` on the dict. -/
def getField (fields : List (String × JVal)) (k : String) : Option JVal :=
  fields.foldl (fun acc kv => if kv.1 = k then some kv.2 else acc) none

/-- Python whitespace as stripped by `str.strip()`: space, tab, newline,
carriage return, vertical tab, form feed.  (CPython also strips some Unicode
space characters; the protocol is ASCII JSON lines, so the ASCII set is the
relevant one.) -/
def isPyWhitespace (c : Char) : Bool :=
  c.toNat = 32 || c.toNat = 9 || c.toNat = 10 || c.toNat = 13 ||
    c.toNat = 11 || c.toNat = 12

/-- Python `str.strip()` with no argument: drop leading and trailing
whitespace. -/
def pyStrip (s : String) : String :=
  String.mk (((s.toList.dropWhile isPyWhitespace).reverse.dropWhile
    isPyWhitespace).reverse)

/-- One line of output: `{"result": s}` on success or `{"error": s}` on
failure. -/
inductive Response where
  | result : String → Response
  | error : String → Response
deriving DecidableEq

/-- The body of `for line in sys.stdin:` together with its inner
`try/except Exception`: from the outcome of `json.loads(line)` compute the
single response printed for this line, and the list of capability calls
`(prompt, max_length, num_return_sequences)` made while processing it.

Branches, in source order:
  * `json.loads` raised: the inner handler prints `{"error": str(e)}`.
  * `data.get("prompt", "")` on a non-dict raises `AttributeError`.
  * `.strip()` on a present non-string value raises `AttributeError`.
  * otherwise trim the prompt (Python `str.strip()`); `if not prompt:` means
    the trimmed string is empty → `{"error": "Prompt is required."}` with no
    capability call.
  * otherwise call `generator(prompt, max_length=128, num_return_sequences=1)`;
    a raised generation exception is caught by the inner handler; on success
    `result = output[0]["generated_text"] if output else ""`. -/
def processLine (gen : String → Nat → Nat → Except String (List String))
    (decoded : Except String JVal) : Response × List (String × Nat × Nat) :=
  match decoded with
  | Except.error m => (Response.error m, [])
  | Except.ok data =>
    match data with
    | JVal.jobj fields =>
      match (getField fields "prompt").getD (JVal.jstr "") with
      | JVal.jstr s =>
        let prompt := pyStrip s
        if prompt = "" then
          (Response.error "Prompt is required.", [])
        else
          match gen prompt 128 1 with
          | Except.ok output => (Response.result (output.headD ""), [(prompt, 128, 1)])
          | Except.error m => (Response.error m, [(prompt, 128, 1)])
      | v => (Response.error ("\x27" ++ pyTypeName v ++ "\x27 object has no attribute \x27strip\x27"), [])
    | v => (Response.error ("\x27" ++ pyTypeName v ++ "\x27 object has no attribute \x27get\x27"), [])

/-- Observable outcome of one run of `main()`: the sequence of lines printed
to stdout, the process exit status, and how many input lines were pulled from
stdin. -/
structure ExecResult where
  output : List Response
  exitCode : Nat
  consumed : Nat
deriving DecidableEq

/-- The whole of `main()`.

`init` is the outcome of the model/tokenizer/pipeline loading (error = the
exception message).  `lines` are the stdin lines the iterator successfully
yields, each given by its `json.loads` outcome; `readErr = some m` means that
after those lines the stdin iterator itself raises with message `m` (this
happens outside the inner per-line try, so the outer handler catches it);
`readErr = none` is clean end-of-stream.

  * If loading raises, the outer handler prints
    `{"error": "Failed to load model: <m>"}` and `sys.exit(1)`; no stdin line
    is ever pulled.
  * Otherwise every yielded line is processed by the loop body; on clean
    end-of-stream `main` returns and the process exits 0.
  * If the iterator raises after the yielded lines, the outer handler catches
    it, prints `{"error": "Failed to load model: <m>"}` (the same f-string)
    and exits 1. -/
def main (init : Except String Unit)
    (gen : String → Nat → Nat → Except String (List String))
    (lines : List (Except String JVal)) (readErr : Option String) : ExecResult :=
  match init with
  | Except.error m =>
    { output := [Response.error ("Failed to load model: " ++ m)], exitCode := 1, consumed := 0 }
  | Except.ok _ =>
    let outs := lines.map (fun d => (processLine gen d).1)
    match readErr with
    | none => { output := outs, exitCode := 0, consumed := lines.length }
    | some m =>
      { output := outs ++ [Response.error ("Failed to load model: " ++ m)],
        exitCode := 1, consumed := lines.length }

/-- Escape one character the way `json.dumps` escapes it inside a string
literal (quote, backslash, and the common control characters). -/
def escapeChar (c : Char) : String :=
  if c.toNat = 34 then "\\\""
  else if c.toNat = 92 then "\\\\"
  else if c.toNat = 10 then "\\n"
  else if c.toNat = 9 then "\\t"
  else if c.toNat = 13 then "\\r"
  else String.singleton c

/-- `json.dumps` string escaping, character by character. -/
def jsonEscape (s : String) : String := String.join (s.toList.map escapeChar)

/-- `json.dumps` of the one-key response object. -/
def serializeResponse : Response → String
  | Response.result s => "\x7b\"result\": \"" ++ jsonEscape s ++ "\"\x7d"
  | Response.error s => "\x7b\"error\": \"" ++ jsonEscape s ++ "\"\x7d"

/-- The buffered stdout channel: `flushed` is what the consumer of the pipe
has observed, `buffer` holds lines written but still sitting in the stdio
buffer (stdout is block-buffered when connected to a pipe, as in the intended
backend deployment). -/
structure OutChannel where
  flushed : List String
  buffer : List String
deriving DecidableEq

/-- A buffered write of one line (what `print(s)` does to block-buffered
stdout, absent `flush=True`). -/
def writeLine (c : OutChannel) (s : String) : OutChannel :=
  { c with buffer := c.buffer ++ [s] }

/-- Flushing the channel: the consumer observes everything buffered.  The
source never calls this (no `flush=True`, no `sys.stdout.flush()`); the
runtime performs it only when the buffer fills or the process exits. -/
def flushOut (c : OutChannel) : OutChannel :=
  { flushed := c.flushed ++ c.buffer, buffer := [] }

/-- `print(json.dumps(response))` as written in the source: serialize the
response and write the line, with no flush. -/
def emit (c : OutChannel) (r : Response) : OutChannel :=
  writeLine c (serializeResponse r)

/-- A concrete capability used by witnesses: echoes the prompt followed by
a continuation, as one candidate. -/
def gen0 : String → Nat → Nat → Except String (List String) :=
  fun p _ _ => Except.ok [p ++ " is rising today"]

/-- A concrete always-failing capability used by witnesses. -/
def genFail : String → Nat → Nat → Except String (List String) :=
  fun _ _ _ => Except.error "CUDA out of memory"

/-- Stripping the empty string yields the empty string. -/
theorem pyStrip_empty : pyStrip "" = "" := by decide

/-- C1: assuming model initialization succeeds and the input stream ends
cleanly, a run over N input lines prints exactly N output lines, the i-th
output line being the response computed for the i-th input line — for every
capability behaviour and every mix of per-line outcomes (decode failure,
empty prompt, generation failure, success). -/
theorem c1_line_order (gen : String → Nat → Nat → Except String (List String))
    (lines : List (Except String JVal)) :
    (main (Except.ok ()) gen lines none).output.length = lines.length ∧
    ∀ (i : Nat) (h : i < lines.length),
      (main (Except.ok ()) gen lines none).output[i]? =
        some (processLine gen lines[i]).1 := by
  refine ⟨by simp [main], ?_⟩
  intro i h
  simp [main, List.getElem?_eq_getElem h]

/-- Closed instance of `c1_line_order` with its index bound discharged at a
concrete run of one malformed line. -/
theorem c1_line_order_witness :
    0 < [(Except.error "Expecting value: line 1 column 1 (char 0)" : Except String JVal)].length ∧
    (main (Except.ok ()) gen0
        [Except.error "Expecting value: line 1 column 1 (char 0)"] none).output[0]? =
      some (processLine gen0 (Except.error "Expecting value: line 1 column 1 (char 0)")).1 :=
  ⟨by decide,
   (c1_line_order gen0 [Except.error "Expecting value: line 1 column 1 (char 0)"]).2 0
     (by decide)⟩

/-- C2: for every decoded JSON object whose "prompt" field is absent, or is a
string that trims to empty, the response is exactly
the error "Prompt is required." and the capability is not invoked (the call
trace is empty). -/
theorem c2_empty_prompt (gen : String → Nat → Nat → Except String (List String))
    (fields : List (String × JVal))
    (h : getField fields "prompt" = none ∨
      ∃ s, getField fields "prompt" = some (JVal.jstr s) ∧ pyStrip s = "") :
    processLine gen (Except.ok (JVal.jobj fields)) =
      (Response.error "Prompt is required.", []) := by
  rcases h with h | ⟨s, h, hs⟩
  · simp [processLine, h, pyStrip_empty]
  · simp [processLine, h, hs]

/-- Closed instance of `c2_empty_prompt` at a whitespace-only prompt. -/
theorem c2_empty_prompt_witness :
    (getField [("prompt", JVal.jstr "   ")] "prompt" = some (JVal.jstr "   ") ∧
      pyStrip "   " = "") ∧
    processLine gen0 (Except.ok (JVal.jobj [("prompt", JVal.jstr "   ")])) =
      (Response.error "Prompt is required.", []) :=
  ⟨⟨rfl, rfl⟩,
   c2_empty_prompt gen0 [("prompt", JVal.jstr "   ")] (Or.inr ⟨"   ", rfl, rfl⟩)⟩

/-- C3 as stated is false: for the input line with a numeric "prompt" value,
`data.get("prompt", "")` returns the number (the default applies only to an
absent key), so `.strip()` raises `AttributeError`; the per-line handler
emits that message, not "Prompt is required.". -/
theorem c3_counterexample :
    (processLine gen0 (Except.ok (JVal.jobj [("prompt", JVal.jnum 5)]))).1 =
      Response.error "\x27int\x27 object has no attribute \x27strip\x27" ∧
    (processLine gen0 (Except.ok (JVal.jobj [("prompt", JVal.jnum 5)]))).1 ≠
      Response.error "Prompt is required." :=
  ⟨rfl, by decide⟩

/-- C3 amended: when the "prompt" key is present but its value is not a
string, the value is NOT treated as the empty string; instead `.strip()`
raises `AttributeError` and the per-line handler emits
the error "TYPE object has no attribute strip" (with the Python type name and
the attribute in single quotes); the capability is not invoked. -/
theorem c3_amended (gen : String → Nat → Nat → Except String (List String))
    (fields : List (String × JVal)) (v : JVal)
    (hget : getField fields "prompt" = some v) (hv : ∀ s, v ≠ JVal.jstr s) :
    processLine gen (Except.ok (JVal.jobj fields)) =
      (Response.error ("\x27" ++ pyTypeName v ++ "\x27 object has no attribute \x27strip\x27"),
        []) := by
  cases v <;>
    first
      | exact absurd rfl (hv _)
      | simp [processLine, hget, pyTypeName]

/-- Closed instance of `c3_amended` at the value 5 for "prompt". -/
theorem c3_amended_witness :
    getField [("prompt", JVal.jnum 5)] "prompt" = some (JVal.jnum 5) ∧
    processLine gen0 (Except.ok (JVal.jobj [("prompt", JVal.jnum 5)])) =
      (Response.error ("\x27" ++ pyTypeName (JVal.jnum 5) ++ "\x27 object has no attribute \x27strip\x27"),
        []) :=
  ⟨rfl,
   c3_amended gen0 [("prompt", JVal.jnum 5)] (JVal.jnum 5) rfl
     (fun _ h => JVal.noConfusion h)⟩

/-- C4 as stated is false for the "not a JSON object" case: the raw line
"[1, 2]" decodes successfully (the input below is `Except.ok`, so no decode
diagnostic exists for it and no `ParseError` is raised at decode time); the
failure happens later, at `data.get`, and the emitted message is the
`AttributeError` text, not a decode-failure message. -/
theorem c4_counterexample :
    (processLine gen0 (Except.ok (JVal.jarr [JVal.jnum 1, JVal.jnum 2]))).1 =
      Response.error "\x27list\x27 object has no attribute \x27get\x27" :=
  rfl

/-- C4 amended: a malformed-JSON line makes `json.loads` raise and the decode
diagnostic is emitted as the error; a well-formed line that is not a JSON
object decodes fine but `data.get` raises `AttributeError`, and that message
is emitted instead.  In both cases the capability is not invoked and the loop
continues: the run over the remaining lines is unchanged. -/
theorem c4_amended (gen : String → Nat → Nat → Except String (List String))
    (m : String) (v : JVal) (hv : ∀ fs, v ≠ JVal.jobj fs)
    (rest : List (Except String JVal)) :
    processLine gen (Except.error m) = (Response.error m, []) ∧
    processLine gen (Except.ok v) =
      (Response.error ("\x27" ++ pyTypeName v ++ "\x27 object has no attribute \x27get\x27"),
        []) ∧
    (main (Except.ok ()) gen (Except.error m :: rest) none).output =
      Response.error m :: (main (Except.ok ()) gen rest none).output := by
  refine ⟨rfl, ?_, by simp [main, processLine]⟩
  cases v <;>
    first
      | exact absurd rfl (hv _)
      | simp [processLine, pyTypeName]

/-- Closed instance of `c4_amended`: a decode failure followed by a valid
line, and a non-object line. -/
theorem c4_amended_witness :
    processLine gen0 (Except.error "Expecting value: line 1 column 1 (char 0)") =
      (Response.error "Expecting value: line 1 column 1 (char 0)", []) ∧
    processLine gen0 (Except.ok (JVal.jarr [])) =
      (Response.error ("\x27" ++ pyTypeName (JVal.jarr []) ++ "\x27 object has no attribute \x27get\x27"),
        []) ∧
    (main (Except.ok ()) gen0
        [Except.error "Expecting value: line 1 column 1 (char 0)",
          Except.ok (JVal.jobj [("prompt", JVal.jstr "hello")])] none).output =
      Response.error "Expecting value: line 1 column 1 (char 0)" ::
        (main (Except.ok ()) gen0
          [Except.ok (JVal.jobj [("prompt", JVal.jstr "hello")])] none).output :=
  c4_amended gen0 "Expecting value: line 1 column 1 (char 0)" (JVal.jarr [])
    (fun _ h => JVal.noConfusion h)
    [Except.ok (JVal.jobj [("prompt", JVal.jstr "hello")])]

/-- C5: for a decoded object whose "prompt" is a string with non-empty trim,
the capability is invoked exactly once, with the trimmed prompt and the fixed
parameters max_length = 128 and num_return_sequences = 1; whenever that call
succeeds with candidate list `out`, the response is the success carrying the
first candidate, or the empty string if there are no candidates. -/
theorem c5_generation (gen : String → Nat → Nat → Except String (List String))
    (fields : List (String × JVal)) (s : String)
    (hget : getField fields "prompt" = some (JVal.jstr s)) (hne : ¬ pyStrip s = "") :
    (processLine gen (Except.ok (JVal.jobj fields))).2 = [(pyStrip s, 128, 1)] ∧
    ∀ out, gen (pyStrip s) 128 1 = Except.ok out →
      (processLine gen (Except.ok (JVal.jobj fields))).1 =
        Response.result (out.headD "") := by
  constructor
  · simp only [processLine, hget, Option.getD_some]
    simp only [hne, if_false]
    cases gen (pyStrip s) 128 1 <;> rfl
  · intro out hout
    simp [processLine, hget, hne, hout]

/-- Closed instance of `c5_generation` at the prompt "The stock market" and
the echoing capability `gen0` (one candidate). -/
theorem c5_generation_witness :
    getField [("prompt", JVal.jstr "The stock market")] "prompt" =
      some (JVal.jstr "The stock market") ∧
    ¬ pyStrip "The stock market" = "" ∧
    (processLine gen0 (Except.ok (JVal.jobj [("prompt", JVal.jstr "The stock market")]))).2 =
      [(pyStrip "The stock market", 128, 1)] ∧
    (processLine gen0 (Except.ok (JVal.jobj [("prompt", JVal.jstr "The stock market")]))).1 =
      Response.result (["The stock market is rising today"].headD "") :=
  ⟨rfl, by decide,
   (c5_generation gen0 [("prompt", JVal.jstr "The stock market")] "The stock market" rfl
     (by decide)).1,
   (c5_generation gen0 [("prompt", JVal.jstr "The stock market")] "The stock market" rfl
     (by decide)).2 ["The stock market is rising today"] rfl⟩

/-- C6: if model loading fails with message m, the run prints exactly the one
line with the error "Failed to load model: m", consumes zero input lines, and
exits with a non-zero status — whatever the capability, the pending input and
the state of the stream. -/
theorem c6_load_failure (gen : String → Nat → Nat → Except String (List String))
    (m : String) (lines : List (Except String JVal)) (readErr : Option String) :
    (main (Except.error m) gen lines readErr).output =
      [Response.error ("Failed to load model: " ++ m)] ∧
    (main (Except.error m) gen lines readErr).consumed = 0 ∧
    (main (Except.error m) gen lines readErr).exitCode ≠ 0 :=
  ⟨rfl, rfl, by simp [main]⟩

/-- C7 as stated is false: after a successful model load, a run in which the
stdin iterator itself raises exits with a non-zero status, although the model
did not fail to load — so non-zero exit is not equivalent to load failure. -/
theorem c7_counterexample :
    (main (Except.ok ()) gen0 [] (some "stream read failure")).exitCode ≠ 0 := by
  decide

/-- C7 amended: the process exits with status zero if and only if
initialization succeeded and the stream reached end-of-input cleanly; in that
case the output is exactly the per-line responses, with nothing after the
last one.  A non-zero exit happens both when loading fails and when the stdin
iterator raises after a successful load. -/
theorem c7_amended (init : Except String Unit)
    (gen : String → Nat → Nat → Except String (List String))
    (lines : List (Except String JVal)) (readErr : Option String) :
    ((main init gen lines readErr).exitCode = 0 ↔
      init = Except.ok () ∧ readErr = none) ∧
    (init = Except.ok () → readErr = none →
      (main init gen lines readErr).output =
        lines.map (fun d => (processLine gen d).1)) := by
  cases init <;> cases readErr <;> simp [main]

/-- Closed instance of `c7_amended` on a clean one-line run. -/
theorem c7_amended_witness :
    ((main (Except.ok ()) gen0 [Except.error "bad"] none).exitCode = 0 ↔
      (Except.ok () : Except String Unit) = Except.ok () ∧
        (none : Option String) = none) ∧
    (main (Except.ok ()) gen0 [Except.error "bad"] none).output =
      [Except.error "bad"].map (fun d => (processLine gen0 d).1) :=
  ⟨(c7_amended (Except.ok ()) gen0 [Except.error "bad"] none).1,
   (c7_amended (Except.ok ()) gen0 [Except.error "bad"] none).2 rfl rfl⟩

/-- C8: any failure inside the processing of one line is absorbed at the
per-line boundary: the line contributes exactly one response, the remaining
lines are processed exactly as they would be on their own, and the exit is
still clean — for every capability behaviour and every decoded line.  In
particular a raised generation failure becomes the error response carrying
its message. -/
theorem c8_per_line_isolation (gen : String → Nat → Nat → Except String (List String))
    (d : Except String JVal) (rest : List (Except String JVal)) :
    ((main (Except.ok ()) gen (d :: rest) none).output =
      (processLine gen d).1 :: (main (Except.ok ()) gen rest none).output ∧
     (main (Except.ok ()) gen (d :: rest) none).exitCode = 0) ∧
    ∀ fields s m, getField fields "prompt" = some (JVal.jstr s) → ¬ pyStrip s = "" →
      gen (pyStrip s) 128 1 = Except.error m →
      (processLine gen (Except.ok (JVal.jobj fields))).1 = Response.error m := by
  refine ⟨⟨by simp [main], rfl⟩, ?_⟩
  intro fields s m hget hne hgen
  simp [processLine, hget, hne, hgen]

/-- Closed instance of `c8_per_line_isolation` with an always-failing
capability: the failing line yields one error response and the loop goes on. -/
theorem c8_per_line_isolation_witness :
    ((main (Except.ok ()) genFail
        [Except.ok (JVal.jobj [("prompt", JVal.jstr "hello")])] none).output =
      (processLine genFail (Except.ok (JVal.jobj [("prompt", JVal.jstr "hello")]))).1 ::
        (main (Except.ok ()) genFail [] none).output ∧
     (main (Except.ok ()) genFail
        [Except.ok (JVal.jobj [("prompt", JVal.jstr "hello")])] none).exitCode = 0) ∧
    (processLine genFail (Except.ok (JVal.jobj [("prompt", JVal.jstr "hello")]))).1 =
      Response.error "CUDA out of memory" :=
  ⟨(c8_per_line_isolation genFail (Except.ok (JVal.jobj [("prompt", JVal.jstr "hello")])) []).1,
   (c8_per_line_isolation genFail (Except.ok (JVal.jobj [("prompt", JVal.jstr "hello")])) []).2
     [("prompt", JVal.jstr "hello")] "hello" "CUDA out of memory" rfl (by decide) rfl⟩

/-- C9 diverges from the code: `emit` (the embedding of
`print(json.dumps(response))`) does write exactly one serialized line — but
to the stdio buffer, and it never flushes: after the emit the buffer is
non-empty (it holds the line) and the consumer-visible flushed stream is
unchanged.  The source passes no `flush=True` and never calls
`sys.stdout.flush()`, so with stdout connected to a pipe (the intended
backend deployment, block-buffered) the consumer does not observe the
response until the buffer fills or the process exits. -/
theorem c9_emit_does_not_flush :
    (emit (OutChannel.mk [] []) (Response.result "ok")).buffer =
      ["\x7b\"result\": \"ok\"\x7d"] ∧
    (emit (OutChannel.mk [] []) (Response.result "ok")).flushed = [] :=
  ⟨rfl, rfl⟩

/-- C10: the outer handler also wraps the read loop: if, after a successful
load, the stdin iterator raises with message m (outside any single line of
processing), the run still answers every line yielded so far, then prints one
more line — the misleading error "Failed to load model: m" — and exits with
status 1. -/
theorem c10_read_error_after_load (gen : String → Nat → Nat → Except String (List String))
    (lines : List (Except String JVal)) (m : String) :
    (main (Except.ok ()) gen lines (some m)).output =
      lines.map (fun d => (processLine gen d).1) ++
        [Response.error ("Failed to load model: " ++ m)] ∧
    (main (Except.ok ()) gen lines (some m)).exitCode = 1 ∧
    (main (Except.ok ()) gen lines (some m)).consumed = lines.length :=
  ⟨rfl, rfl, rfl⟩

end InvestGPT
